import Mathlib

/-!
Verification of the MEDICORE-AI frontend service layer and of the core
retrieval/safety pipeline described in the project specification.

The frontend code (`services/api.js`, `App.jsx`, `components/*.jsx`) is
embedded directly.  The backend pipeline components (fusion engine,
safety gate, evidence aggregator) are not part of the source tree here,
so they are modelled from the specification text, as marked on each
definition.
-/

namespace Medicore

/-! ## SSE streaming client (`sendMessageStream` in `services/api.js`)

A well-formed server-sent-event stream is modelled as the list of parsed
`data:` events, in stream order.  Each constructor mirrors one
`data.type` handled by the client loop. -/

/-- One parsed SSE `data:` event, as dispatched on `data.type` by
`sendMessageStream`.  For a `done` event, `sources := none` models a
falsy `data.sources` (the code stores `data.sources || null`). -/
inductive SSEEvent where
  | chatIdEv (id : String)
  | contentEv (text : String)
  | triageEv (triage : String) (confidence : String)
  | doneEv (awaiting : Bool) (sources : Option (List String))
  | errorEv (message : String)
deriving Repr, DecidableEq

/-- The `result` accumulator of `sendMessageStream`, with its initial
values `{ chat_id: null, awaiting_followup: false, sources: null,
triage: null, confidence: null }`. -/
structure StreamResult where
  chat_id : Option String
  awaiting_followup : Bool
  sources : Option (List String)
  triage : Option String
  confidence : Option String
deriving Repr, DecidableEq

def initStreamResult : StreamResult :=
  { chat_id := none, awaiting_followup := false, sources := none,
    triage := none, confidence := none }

/-- Failure raised inside the per-line `try` block: a server `error`
event makes the client `throw new Error(data.message)`. -/
inductive StreamError where
  | server (message : String)
deriving Repr, DecidableEq

/-- Loop state of `sendMessageStream`: the `result` object, the
arguments passed to `onChunk` so far (in call order), and the messages
passed to `console.warn` by the per-line catch block. -/
structure LoopState where
  result : StreamResult
  chunks : List String
  warnings : List String
deriving Repr, DecidableEq

def initLoopState : LoopState :=
  { result := initStreamResult, chunks := [], warnings := [] }

/-- Body of the per-line `try` block: dispatch on `data.type`.  An
`error` event throws; every other event updates the accumulator. -/
def handleData (s : LoopState) : SSEEvent → Except StreamError LoopState
  | .chatIdEv i => .ok { s with result := { s.result with chat_id := some i } }
  | .contentEv c => .ok { s with chunks := s.chunks ++ [c] }
  | .triageEv t cf =>
      .ok { s with result := { s.result with triage := some t, confidence := some cf } }
  | .doneEv af src =>
      .ok { s with result := { s.result with awaiting_followup := af, sources := src } }
  | .errorEv m => .error (.server m)

/-- One full line iteration: the `try` body wrapped in the catch block
`catch (e) { if (e.message !== "error") console.warn("SSE parse error:", e) }`.
A caught error never escapes; it at most appends a warning. -/
def processLine (s : LoopState) (e : SSEEvent) : LoopState :=
  match handleData s e with
  | .ok s' => s'
  | .error (.server m) =>
      if m = "error" then s else { s with warnings := s.warnings ++ [m] }

/-- The whole read loop of `sendMessageStream` over a well-formed
stream: fold `processLine` over the events in order. -/
def processStream (events : List SSEEvent) : LoopState :=
  events.foldl processLine initLoopState

/-- The function `sendMessageStream` itself: reject on a non-ok HTTP status
(`throw new Error("Stream failed: " + status)`), otherwise run the read
loop and resolve with `result`. -/
def sendMessageStream (respOk : Bool) (status : Nat) (events : List SSEEvent) :
    Except String StreamResult :=
  if respOk then .ok (processStream events).result
  else .error ("Stream failed: " ++ toString status)

/-- Projection used to state what the last `chat_id` event carries. -/
def chatIdOf : SSEEvent → Option String
  | .chatIdEv i => some i
  | _ => none

/-- Projection for `content` events. -/
def contentOf : SSEEvent → Option String
  | .contentEv c => some c
  | _ => none

/-- Projection for `triage` events: the `(triage, confidence)` pair. -/
def triageOf : SSEEvent → Option (String × String)
  | .triageEv t c => some (t, c)
  | _ => none

/-- Projection for `done` events: the `(awaiting_followup, sources)` pair. -/
def doneOf : SSEEvent → Option (Bool × Option (List String))
  | .doneEv af src => some (af, src)
  | _ => none

/-! ## `ChatInput.jsx` (`handleSubmit`) -/

/-- Outcome of one `handleSubmit` call: the argument passed to `onSend`
(if it was invoked) and the value of the input field afterwards. -/
structure SubmitOutcome where
  sent : Option String
  newInput : String
deriving Repr, DecidableEq

/-- JavaScript `String.prototype.trim`: strip whitespace from both
ends of the string. -/
def jsTrim (s : String) : String :=
  ⟨((s.data.dropWhile Char.isWhitespace).reverse.dropWhile Char.isWhitespace).reverse⟩

/-- The handler `handleSubmit` of `ChatInput.jsx`: return early when `disabled`;
otherwise trim the input, and only a non-empty trimmed string is sent
(and the field cleared). -/
def handleSubmit (disabled : Bool) (input : String) : SubmitOutcome :=
  if disabled then { sent := none, newInput := input }
  else
    let trimmedInput := jsTrim input
    if trimmedInput ≠ "" then { sent := some trimmedInput, newInput := "" }
    else { sent := none, newInput := input }

/-! ## `ConfidenceBadge.jsx` -/

/-- One entry of `CONFIDENCE_CONFIG`. -/
structure BadgeConfig where
  color : String
  label : String
  icon : String
deriving Repr, DecidableEq

def highConfig : BadgeConfig := ⟨"#00cc00", "High Confidence", "●"⟩
def mediumConfig : BadgeConfig := ⟨"#ffcc00", "Moderate Confidence", "●"⟩
def lowConfig : BadgeConfig := ⟨"#ff6600", "Low Confidence", "●"⟩

/-- A value produced by JavaScript bracket lookup on the
`CONFIDENCE_CONFIG` object literal: one of its own config entries, a
member inherited from `Object.prototype` (a truthy function or object),
or `undefined`. -/
inductive JSProp where
  | config (cfg : BadgeConfig)
  | inherited (name : String)
  | undefinedVal
deriving Repr, DecidableEq

/-- The member names a plain object literal inherits from
`Object.prototype`, all reachable by bracket lookup and all truthy. -/
def objectProtoMembers : List String :=
  ["constructor", "hasOwnProperty", "isPrototypeOf", "propertyIsEnumerable",
   "toLocaleString", "toString", "valueOf", "__proto__",
   "__defineGetter__", "__defineSetter__", "__lookupGetter__", "__lookupSetter__"]

/-- JavaScript `CONFIDENCE_CONFIG[confidence]`: bracket lookup searches
own properties first, then the prototype chain (`Object.prototype`),
and yields `undefined` only when both miss. -/
def confidenceLookupJS (s : String) : JSProp :=
  if s = "high" then .config highConfig
  else if s = "medium" then .config mediumConfig
  else if s = "low" then .config lowConfig
  else if s ∈ objectProtoMembers then .inherited s
  else .undefinedVal

/-- Whether a lookup result is truthy (only `undefined` is falsy among
the values bracket lookup can produce here). -/
def truthyProp : JSProp → Bool
  | .undefinedVal => false
  | _ => true

/-- JavaScript `CONFIDENCE_CONFIG[confidence] || CONFIDENCE_CONFIG.medium`:
the medium fallback fires only when the lookup result is falsy. -/
def badgeConfigJS (s : String) : JSProp :=
  if truthyProp (confidenceLookupJS s) then confidenceLookupJS s
  else .config mediumConfig

/-- JavaScript `config.label`: reading `.label` off an inherited
`Object.prototype` member yields `undefined` (`none`). -/
def labelRead : JSProp → Option String
  | .config cfg => some cfg.label
  | _ => none

/-- The `ConfidenceBadge` component.  The prop is `none` for
null/undefined; `if (!confidence) return null` also treats the empty
string as falsy.  Otherwise the rendered badge uses
`CONFIDENCE_CONFIG[confidence] || CONFIDENCE_CONFIG.medium`. -/
def renderBadge (confidence : Option String) : Option JSProp :=
  match confidence with
  | none => none
  | some s =>
      if s = "" then none
      else some (badgeConfigJS s)

/-! ## `App.jsx` conversation turn state

The only piece of two-turn state the frontend keeps is the
`awaitingFollowup` React state (initially `false`).  The events below
are the places in `App.jsx` that read or write it:
`handleSendMessage` sends the current value and on success stores
`result.awaiting_followup` (on error it leaves the state untouched);
`newConversation`, `selectConversation` and `handleLogout` all call
`setAwaitingFollowup(false)`. -/

inductive FrontendEvent where
  | sendSuccess (returned : Bool)
  | sendFailure
  | newChat
  | selectChat
  | logout
deriving Repr, DecidableEq

structure AppState where
  awaitingFollowup : Bool
deriving Repr, DecidableEq

/-- Initial `useState(false)` for `awaitingFollowup`. -/
def initialAppState : AppState := ⟨false⟩

/-- Effect of each `App.jsx` handler on the `awaitingFollowup` state. -/
def appStep (st : AppState) : FrontendEvent → AppState
  | .sendSuccess r => { awaitingFollowup := r }
  | .sendFailure => st
  | .newChat => { awaitingFollowup := false }
  | .selectChat => { awaitingFollowup := false }
  | .logout => { awaitingFollowup := false }

def runApp (trace : List FrontendEvent) : AppState :=
  trace.foldl appStep initialAppState

/-- The `awaiting_followup` flag `handleSendMessage` would send with the
next message after the given trace of events. -/
def sentFollowupFlag (trace : List FrontendEvent) : Bool :=
  (runApp trace).awaitingFollowup

/-- Specification-side value: the `awaiting_followup` returned by the
most recent completed exchange, or `false` if a new-chat, chat-switch or
logout happened since (or no exchange completed yet).  Defined on the
reversed trace (most recent event first). -/
def lastReturnedFollowupRev : List FrontendEvent → Bool
  | [] => false
  | .sendSuccess r :: _ => r
  | .sendFailure :: rest => lastReturnedFollowupRev rest
  | .newChat :: _ => false
  | .selectChat :: _ => false
  | .logout :: _ => false

def lastReturnedFollowup (trace : List FrontendEvent) : Bool :=
  lastReturnedFollowupRev trace.reverse

/-- Projection for `error` events: the server-sent error message. -/
def errorMsgOf : SSEEvent → Option String
  | .errorEv m => some m
  | _ => none

/-- The value carried by the last `chat_id` event, if any. -/
def lastChatId (events : List SSEEvent) : Option String :=
  (events.filterMap chatIdOf).getLast?

/-- The `(triage, confidence)` pair of the last `triage` event, if any. -/
def lastTriage (events : List SSEEvent) : Option (String × String) :=
  (events.filterMap triageOf).getLast?

/-- The `(awaiting_followup, sources)` pair of the last `done` event. -/
def lastDone (events : List SSEEvent) : Option (Bool × Option (List String)) :=
  (events.filterMap doneOf).getLast?

/-! ## Fusion Engine (hybrid retriever)

The hybrid retriever itself is backend code that is not part of this
source tree (only `ARCHITECTURE.md` describes it), so the component is
modelled from the specification, §4.2–§4.4. -/

/-- Modelled from the spec: §4.2 — the error the Vector Index Client
raises when the external store is unreachable or uninitialized. -/
inductive RetrievalUnavailable where
  | unavailable
deriving Repr, DecidableEq

inductive ConfidenceLevel where
  | high
  | medium
  | low
deriving Repr, DecidableEq

/-- Modelled from the spec: §4.4 step 3 — RRF vector weight `wVec=0.6`. -/
def wVec : ℚ := 0.6

/-- Modelled from the spec: §4.4 step 3 — RRF lexical weight `wLex=0.4`. -/
def wLex : ℚ := 0.4

/-- Modelled from the spec: §4.4 step 3 — RRF damping constant `C=60`. -/
def rrfC : ℚ := 60

/-- Modelled from the spec: one reciprocal-rank term `w / (C + rank)`;
a candidate missing from the ranking contributes 0 for that term. -/
def rrfTerm (w : ℚ) : Option ℕ → ℚ
  | some rank => w / (rrfC + rank)
  | none => 0

/-- Modelled from the spec: §4.4 step 3 — the fused RRF score. -/
def fusedScoreOf (rankVec rankLex : Option ℕ) : ℚ :=
  rrfTerm wVec rankVec + rrfTerm wLex rankLex

/-- Modelled from the spec: §3 — a retrieval candidate with its source
ranks and scores. -/
structure RetrievalCandidate where
  text : String
  vectorScore : ℚ
  vectorRank : Option ℕ
  lexicalRank : Option ℕ
  fusedScore : ℚ
  rerankScore : Option ℚ
deriving Repr, DecidableEq

/-- The score actually used to order a candidate: `rerankScore` when
reranking succeeded, the fused score otherwise (§4.4 step 5). -/
def usedScore (c : RetrievalCandidate) : ℚ :=
  c.rerankScore.getD c.fusedScore

/-- Modelled from the spec: §4.4 step 6 — confidence thresholds. -/
def confidenceOf (c : RetrievalCandidate) : ConfidenceLevel :=
  match c.rerankScore with
  | some rs => if rs > 5 then .high else if rs > 0 then .medium else .low
  | none =>
      if c.vectorScore > 0.8 then .high
      else if c.vectorScore > 0.5 then .medium
      else .low

/-- Modelled from the spec: §3 — ordered top-K candidates, each with a
derived confidence level, plus the degradation flag of §4.4 step 1. -/
structure RankedContext where
  entries : List (RetrievalCandidate × ConfidenceLevel)
  degraded : Bool
deriving Repr, DecidableEq

/-- Merge duplicates by exact text match, keeping the first (highest
vector-ranked) occurrence (§3: candidates are content-addressed). -/
def dedupeByText (l : List (String × ℚ)) : List (String × ℚ) :=
  l.foldl (fun acc p => if acc.any (fun q => q.1 = p.1) then acc else acc ++ [p]) []

/-- Modelled from the spec: §4.4 step 2 — the per-query lexical ranking
of the candidate pool, descending by BM25 score. -/
def lexicalRanking (lexScore : String → ℚ) (texts : List String) : List String :=
  List.insertionSort (fun a b => lexScore b ≤ lexScore a) texts

/-- Modelled from the spec: §4.4 step 3 — annotate each pooled
candidate with its ranks and its fused RRF score. -/
def fusionBase (lexScore : String → ℚ) (pool : List (String × ℚ)) :
    List RetrievalCandidate :=
  let texts := pool.map Prod.fst
  let lexRank := lexicalRanking lexScore texts
  pool.map fun p =>
    { text := p.1, vectorScore := p.2,
      vectorRank := texts.indexOf? p.1,
      lexicalRank := lexRank.indexOf? p.1,
      fusedScore := fusedScoreOf (texts.indexOf? p.1) (lexRank.indexOf? p.1),
      rerankScore := (none : Option ℚ) }

/-- Modelled from the spec: §4.4 step 4 — sort descending by fused
score (ties stay in vector order). -/
def fusedOrder (l : List RetrievalCandidate) : List RetrievalCandidate :=
  List.insertionSort (fun a b => b.fusedScore ≤ a.fusedScore) l

/-- Modelled from the spec: §4.4 step 4 — batch reranking; when the
Reranker failed (`none`) the step is skipped and fusion order kept. -/
def applyReranker (reranker : Option (String → ℚ))
    (l : List RetrievalCandidate) : List RetrievalCandidate :=
  match reranker with
  | some f => l.map fun c => { c with rerankScore := some (f c.text) }
  | none => l

/-- Modelled from the spec: §4.4 step 5 — sort descending by
`rerankScore` (if present) else fused score. -/
def finalOrder (l : List RetrievalCandidate) : List RetrievalCandidate :=
  List.insertionSort (fun a b => usedScore b ≤ usedScore a) l

/-- Modelled from the spec: §4.4 — `retrieve(query, k)`.  The vector
search outcome, the per-query BM25 scorer over the candidate pool, and
the reranker (`none` when reranking failed and is skipped) stand in for
the external collaborators. -/
def retrieve (k : ℕ)
    (vec : Except RetrievalUnavailable (List (String × ℚ)))
    (lexScore : String → ℚ)
    (reranker : Option (String → ℚ)) : RankedContext :=
  match vec with
  | .error _ => { entries := [], degraded := true }
  | .ok raw =>
      let pool := dedupeByText (raw.take (3 * k))
      let ordered :=
        finalOrder (applyReranker reranker (fusedOrder (fusionBase lexScore pool)))
      { entries := (ordered.take k).map (fun c => (c, confidenceOf c)),
        degraded := false }

/-! ## Safety Gate

`backend/app/safety.py` is not part of this source tree (only
`ARCHITECTURE.md` describes it), so the gate is modelled from the
specification, §4.6. -/

/-- Modelled from the spec: §4.6 step 2 — outcome of the LLM contextual
judgment. -/
inductive ContextJudgment where
  | activeEmergency
  | notEmergency
  | unclear
deriving Repr, DecidableEq

/-- Modelled from the spec: §3 — the exclusive part of the safety
verdict. -/
inductive SafetyVerdict where
  | blocked (reason : String)
  | emergencyFlag (reason : String)
  | clear
deriving Repr, DecidableEq

/-- Modelled from the spec: §4.6 step 4 — the mental-health verdict is
additive, so it is carried beside the exclusive verdict. -/
structure GateOutcome where
  verdict : SafetyVerdict
  mentalHealthPreamble : Option String
deriving Repr, DecidableEq

/-- Modelled from the spec: §4.6 — length violations are rejected
before any of the checks run. -/
inductive InvalidLength where
  | invalid
deriving Repr, DecidableEq

def supportivePreamble : String :=
  "You are not alone; crisis resources are available."

def policyReason : String := "disallowed content request"

def emergencyReason : String := "possible active medical emergency"

/-- Modelled from the spec: §4.6 — the features of one query relevant
to the gate: its length and the three fixed-term-set match results. -/
structure QueryFeatures where
  length : ℕ
  emergencyLexicalMatch : Bool
  policyMatch : Bool
  mentalHealthMatch : Bool
deriving Repr, DecidableEq

/-- Modelled from the spec: §4.6 — the Safety Gate.  Text outside 3–2000
characters is rejected first; the content-policy check short-circuits
everything else; then, when the lexical emergency scan matched, the
contextual judgment decides, with `UNCLEAR` treated identically to
`ACTIVE_EMERGENCY` (fail safe); the mental-health match is additive. -/
def safetyGate (q : QueryFeatures) (judgment : ContextJudgment) :
    Except InvalidLength GateOutcome :=
  if q.length < 3 ∨ 2000 < q.length then .error .invalid
  else
    let mh := if q.mentalHealthMatch then some supportivePreamble else none
    if q.policyMatch then .ok ⟨.blocked policyReason, mh⟩
    else if q.emergencyLexicalMatch then
      match judgment with
      | .activeEmergency => .ok ⟨.emergencyFlag emergencyReason, mh⟩
      | .unclear => .ok ⟨.emergencyFlag emergencyReason, mh⟩
      | .notEmergency => .ok ⟨.clear, mh⟩
    else .ok ⟨.clear, mh⟩

/-! ## Evidence Aggregator

`backend/app/live_context.py` is not part of this source tree (only
`ARCHITECTURE.md` describes it), so the aggregator is modelled from the
specification, §4.5.  A sub-fetch is abstracted to its outcome under
the shared deadline: a value delivered in time, a failure (network
error / malformed response), or a timeout. -/

structure InteractionWarning where
  description : String
  severity : String
deriving Repr, DecidableEq

/-- Modelled from the spec: §3 — `EvidenceBundle`; every field is a
sequence, absence is the empty sequence. -/
structure EvidenceBundle where
  literatureSnippets : List String
  interactionWarnings : List InteractionWarning
  adverseEventSignals : List String
deriving Repr, DecidableEq

/-- Modelled from the spec: §4.5 — what one sub-fetch did by the time
the shared deadline elapsed. -/
inductive FetchOutcome (α : Type) where
  | ok (value : α)
  | failed
  | timedOut
deriving Repr, DecidableEq

inductive FetchError where
  | networkError
  | timeout
deriving Repr, DecidableEq

/-- The raising view of one sub-fetch: failures and timeouts raise. -/
def fetchExc {α : Type} : FetchOutcome α → Except FetchError α
  | .ok v => .ok v
  | .failed => .error .networkError
  | .timedOut => .error .timeout

/-- Modelled from the spec: §4.5 — every sub-fetch failure is caught
locally and converted to an empty contribution. -/
def recoverFetch {α : Type} (o : FetchOutcome (List α)) : List α :=
  match fetchExc o with
  | .ok v => v
  | .error _ => []

/-- The local try/catch around one sub-fetch: the error never escapes. -/
def tryFetch {α : Type} (o : FetchOutcome (List α)) :
    Except FetchError (List α) :=
  match fetchExc o with
  | .ok v => .ok v
  | .error _ => .ok []

/-- Modelled from the spec: §4.5 — `gather(query, detectedEntities,
deadline)`.  The query and deadline are abstracted into the outcomes of
the three sub-fetches; `entityCount` is the number of named entities
extracted from the query.  Interaction lookup is only attempted with
≥2 entities, adverse-event lookup with ≥1; result sizes are capped at
3/3/5. -/
def gather (entityCount : ℕ)
    (literature : FetchOutcome (List String))
    (interactions : FetchOutcome (List InteractionWarning))
    (adverse : FetchOutcome (List String)) : EvidenceBundle :=
  { literatureSnippets := (recoverFetch literature).take 3,
    interactionWarnings :=
      if 2 ≤ entityCount then (recoverFetch interactions).take 3 else [],
    adverseEventSignals :=
      if 1 ≤ entityCount then (recoverFetch adverse).take 5 else [] }

/-- The raising view of the whole aggregator: each sub-fetch may raise
internally but is wrapped in its local catch (`tryFetch`). -/
def gatherExc (entityCount : ℕ)
    (literature : FetchOutcome (List String))
    (interactions : FetchOutcome (List InteractionWarning))
    (adverse : FetchOutcome (List String)) :
    Except FetchError EvidenceBundle :=
  match tryFetch literature with
  | .error e => .error e
  | .ok lit =>
      match if 2 ≤ entityCount then tryFetch interactions else .ok [] with
      | .error e => .error e
      | .ok warns =>
          match if 1 ≤ entityCount then tryFetch adverse else .ok [] with
          | .error e => .error e
          | .ok adv =>
              .ok { literatureSnippets := lit.take 3,
                    interactionWarnings := warns.take 3,
                    adverseEventSignals := adv.take 5 }

/-! ## Theorems -/

/-- Helper: one loop iteration never touches earlier chunks and appends
exactly the content of a `content` event. -/
theorem processLine_chunks (s : LoopState) (e : SSEEvent) :
    (processLine s e).chunks = s.chunks ++ (contentOf e).toList := by
  cases e <;> simp [processLine, handleData, contentOf]
  split <;> rfl

/-- Helper: full characterization of the `sendMessageStream` read loop
as a function of the event list. -/
theorem processStream_characterization (events : List SSEEvent) :
    processStream events =
      { result := { chat_id := lastChatId events,
                    awaiting_followup := ((lastDone events).map Prod.fst).getD false,
                    sources := ((lastDone events).map Prod.snd).getD none,
                    triage := (lastTriage events).map Prod.fst,
                    confidence := (lastTriage events).map Prod.snd },
        chunks := events.filterMap contentOf,
        warnings := (events.filterMap errorMsgOf).filter (fun m => m ≠ "error") } := by
  induction events using List.reverseRecOn with
  | nil => rfl
  | append_singleton es e ih =>
      have h1 : processStream (es ++ [e]) = processLine (processStream es) e := by
        simp [processStream, List.foldl_append]
      rw [h1, ih]
      cases e <;>
        simp [processLine, handleData, lastChatId, lastTriage, lastDone,
              chatIdOf, triageOf, doneOf, contentOf, errorMsgOf,
              List.filterMap_append, List.getLast?_concat]
      split <;> simp_all

/-- Helper: the flag the frontend would send next always equals the
value returned by the most recent completed exchange (false if a reset
event intervened or none completed). -/
theorem sentFollowupFlag_eq_lastReturned (trace : List FrontendEvent) :
    sentFollowupFlag trace = lastReturnedFollowup trace := by
  induction trace using List.reverseRecOn with
  | nil => rfl
  | append_singleton es e ih =>
      have h1 : sentFollowupFlag (es ++ [e]) = (appStep (runApp es) e).awaitingFollowup := by
        simp [sentFollowupFlag, runApp, List.foldl_append]
      have h2 : lastReturnedFollowup (es ++ [e]) = lastReturnedFollowupRev (e :: es.reverse) := by
        simp [lastReturnedFollowup]
      rw [h1, h2]
      cases e <;> simp [appStep, lastReturnedFollowupRev]
      simpa [sentFollowupFlag, lastReturnedFollowup] using ih

/-- C1: the `awaiting_followup` flag sent with a message equals the
value returned by the immediately preceding completed exchange, and is
false for the first message sent after a new chat, a conversation
switch, a logout, or at startup. -/
theorem frontend_persists_turnState (trace : List FrontendEvent) :
    sentFollowupFlag trace = lastReturnedFollowup trace ∧
    sentFollowupFlag [] = false ∧
    (∀ r, sentFollowupFlag (trace ++ [FrontendEvent.sendSuccess r]) = r) ∧
    sentFollowupFlag (trace ++ [FrontendEvent.newChat]) = false ∧
    sentFollowupFlag (trace ++ [FrontendEvent.selectChat]) = false ∧
    sentFollowupFlag (trace ++ [FrontendEvent.logout]) = false := by
  refine ⟨sentFollowupFlag_eq_lastReturned trace, rfl, ?_, ?_, ?_, ?_⟩ <;>
    simp [sentFollowupFlag, runApp, List.foldl_append, appStep]

/-- C2: over a well-formed SSE stream, `sendMessageStream` resolves to
the result whose `chat_id` comes from the last `chat_id` event, whose
`triage`/`confidence` come from the last `triage` event, whose
`awaiting_followup`/`sources` come from the last `done` event, each
field keeping its initial value when no such event occurs; and
`onChunk` is invoked exactly once per `content` event, in stream order,
with the content of that event. -/
theorem sendMessageStream_result_spec (status : ℕ) (events : List SSEEvent) :
    sendMessageStream true status events =
      Except.ok { chat_id := lastChatId events,
                  awaiting_followup := ((lastDone events).map Prod.fst).getD false,
                  sources := ((lastDone events).map Prod.snd).getD none,
                  triage := (lastTriage events).map Prod.fst,
                  confidence := (lastTriage events).map Prod.snd } ∧
    (processStream events).chunks = events.filterMap contentOf := by
  constructor
  · simp [sendMessageStream, processStream_characterization]
  · rw [processStream_characterization]

/-- C3: when the HTTP response is ok, a server-sent `error` event never
makes `sendMessageStream` reject: the per-line catch absorbs it, later
`content` events are still delivered, and the promise resolves
normally. -/
theorem sendMessageStream_errorEvent_resolves (status : ℕ) (events : List SSEEvent)
    (m : String) (_h : SSEEvent.errorEv m ∈ events) :
    sendMessageStream true status events = Except.ok (processStream events).result ∧
    (processStream events).chunks = events.filterMap contentOf := by
  refine ⟨by simp [sendMessageStream], ?_⟩
  rw [processStream_characterization]

/-- Witness for C3: a concrete stream whose middle event is a server
error still resolves, with both surrounding content chunks delivered. -/
theorem sendMessageStream_errorEvent_resolves_witness :
    (sendMessageStream true 200
        [SSEEvent.contentEv "a", SSEEvent.errorEv "boom", SSEEvent.contentEv "b"] =
      Except.ok (processStream
        [SSEEvent.contentEv "a", SSEEvent.errorEv "boom", SSEEvent.contentEv "b"]).result) ∧
    (processStream
        [SSEEvent.contentEv "a", SSEEvent.errorEv "boom", SSEEvent.contentEv "b"]).chunks =
      List.filterMap contentOf
        [SSEEvent.contentEv "a", SSEEvent.errorEv "boom", SSEEvent.contentEv "b"] :=
  sendMessageStream_errorEvent_resolves 200 _ "boom" (by simp)

/-- C9: `ChatInput` calls `onSend` iff it is enabled and the trimmed
input is non-empty; when called it passes exactly the trimmed text and
clears the field. -/
theorem handleSubmit_sends_iff (disabled : Bool) (input : String) :
    ((handleSubmit disabled input).sent.isSome ↔ disabled = false ∧ jsTrim input ≠ "") ∧
    ∀ t, (handleSubmit disabled input).sent = some t →
      t = jsTrim input ∧ (handleSubmit disabled input).newInput = "" := by
  cases disabled <;> simp only [handleSubmit] <;> first
    | (simp; split <;> simp_all)
    | simp

/-- Witness for C9: a padded input is sent trimmed and the field is
cleared; whitespace-only input and the disabled state never send. -/
theorem handleSubmit_sends_iff_witness :
    (handleSubmit false "  chest pain  ").sent = some "chest pain" ∧
    (handleSubmit false "  chest pain  ").newInput = "" ∧
    (handleSubmit false "   ").sent = none ∧
    (handleSubmit true "  chest pain  ").sent = none := by
  have h := (handleSubmit_sends_iff false "  chest pain  ").2 "chest pain" (by decide)
  exact ⟨by decide, h.2, by decide, by decide⟩

/-- C10 counterexample: the truthy value "toString" lies outside
{high, medium, low}, yet the badge does not fall back to the medium
configuration — bracket lookup finds the inherited, truthy
`Object.prototype.toString`, suppressing the `||` fallback — and the
rendered label is undefined, not one of the three configured labels. -/
theorem renderBadge_toString_no_fallback :
    renderBadge (some "toString") = some (JSProp.inherited "toString") ∧
    renderBadge (some "toString") ≠ some (JSProp.config mediumConfig) ∧
    labelRead (JSProp.inherited "toString") = none ∧
    (none : Option String) ≠ some "High Confidence" ∧
    (none : Option String) ≠ some "Moderate Confidence" ∧
    (none : Option String) ≠ some "Low Confidence" := by decide

/-- C10 (amended): `ConfidenceBadge` renders nothing exactly when the
prop is falsy; a truthy value outside {high, medium, low} falls back to
the medium configuration — and its label is one of the three configured
labels — only when it is not the name of an inherited
`Object.prototype` member; for an inherited-member name the lookup
yields the inherited truthy member, no fallback occurs, and the
rendered label is undefined. -/
theorem renderBadge_prototype_spec (confidence : Option String) :
    (renderBadge confidence = none ↔ confidence = none ∨ confidence = some "") ∧
    (∀ s, confidence = some s → s ≠ "" → s ≠ "high" → s ≠ "medium" → s ≠ "low" →
        s ∉ objectProtoMembers →
        renderBadge confidence = some (JSProp.config mediumConfig) ∧
          mediumConfig.label = "Moderate Confidence") ∧
    (∀ s, confidence = some s → s ∉ objectProtoMembers →
        ∀ p, renderBadge confidence = some p →
          labelRead p = some "High Confidence" ∨
            labelRead p = some "Moderate Confidence" ∨
            labelRead p = some "Low Confidence") ∧
    (∀ s, confidence = some s → s ∈ objectProtoMembers →
        renderBadge confidence = some (JSProp.inherited s) ∧
          labelRead (JSProp.inherited s) = none) := by
  refine ⟨?_, ?_, ?_, ?_⟩
  · cases confidence with
    | none => simp [renderBadge]
    | some s =>
        by_cases h0 : s = ""
        · subst h0; simp [renderBadge]
        · simp [renderBadge, h0]
  · intro s hc h0 h1 h2 h3 h4
    subst hc
    have hl : confidenceLookupJS s = JSProp.undefinedVal := by
      simp [confidenceLookupJS, h1, h2, h3, h4]
    exact ⟨by simp [renderBadge, h0, badgeConfigJS, hl, truthyProp], rfl⟩
  · intro s hc hproto p hp
    subst hc
    by_cases h0 : s = ""
    · subst h0; simp [renderBadge] at hp
    · simp only [renderBadge, if_neg h0] at hp
      rw [Option.some.injEq] at hp
      subst hp
      by_cases h1 : s = "high"
      · subst h1; exact Or.inl (by decide)
      · by_cases h2 : s = "medium"
        · subst h2; exact Or.inr (Or.inl (by decide))
        · by_cases h3 : s = "low"
          · subst h3; exact Or.inr (Or.inr (by decide))
          · have hl : confidenceLookupJS s = JSProp.undefinedVal := by
              simp [confidenceLookupJS, h1, h2, h3, hproto]
            have hb : badgeConfigJS s = JSProp.config mediumConfig := by
              simp [badgeConfigJS, hl, truthyProp]
            rw [hb]
            exact Or.inr (Or.inl rfl)
  · intro s hc hmem
    subst hc
    simp only [objectProtoMembers, List.mem_cons, List.not_mem_nil, or_false] at hmem
    rcases hmem with rfl | rfl | rfl | rfl | rfl | rfl | rfl | rfl | rfl | rfl | rfl | rfl <;>
      exact ⟨by decide, rfl⟩

/-- Witness for C10 (amended): an unknown value that is not an
inherited-member name renders the medium badge; null and the empty
string render nothing. -/
theorem renderBadge_prototype_spec_witness :
    renderBadge (some "very-high") = some (JSProp.config mediumConfig) ∧
    mediumConfig.label = "Moderate Confidence" ∧
    renderBadge (some "") = none ∧
    renderBadge none = none := by
  have h := (renderBadge_prototype_spec (some "very-high")).2.1 "very-high" rfl
    (by decide) (by decide) (by decide) (by decide) (by decide)
  exact ⟨h.1, h.2, by decide, rfl⟩

/-- C4: when the Vector Index Client request fails with
`RetrievalUnavailable`, `retrieve(query, k)` returns an empty
`RankedContext` with `degraded = true`; being a total function of its
inputs, it raises nothing to its caller. -/
theorem retrieve_degrades_on_unavailable (k : ℕ) (lexScore : String → ℚ)
    (reranker : Option (String → ℚ)) :
    retrieve k (.error .unavailable) lexScore reranker =
      { entries := [], degraded := true } := rfl

/-- C5: the fused score is `0.6/(60+rankVec) + 0.4/(60+rankLex)`, a
missing ranking contributing 0 for its term; hence a candidate present
in both rankings scores at least an otherwise identical candidate
present in only one. -/
theorem fusedScoreOf_formula_monotone (rankVec rankLex : ℕ) :
    fusedScoreOf (some rankVec) (some rankLex) =
      0.6 / (60 + (rankVec : ℚ)) + 0.4 / (60 + (rankLex : ℚ)) ∧
    fusedScoreOf (some rankVec) none = 0.6 / (60 + (rankVec : ℚ)) + 0 ∧
    fusedScoreOf none (some rankLex) = 0 + 0.4 / (60 + (rankLex : ℚ)) ∧
    fusedScoreOf (some rankVec) none ≤ fusedScoreOf (some rankVec) (some rankLex) ∧
    fusedScoreOf none (some rankLex) ≤ fusedScoreOf (some rankVec) (some rankLex) := by
  have hv : (0 : ℚ) ≤ 0.6 / (60 + (rankVec : ℚ)) := by
    apply div_nonneg (by norm_num)
    positivity
  have hl : (0 : ℚ) ≤ 0.4 / (60 + (rankLex : ℚ)) := by
    apply div_nonneg (by norm_num)
    positivity
  refine ⟨rfl, rfl, rfl, ?_, ?_⟩
  · simpa [fusedScoreOf, rrfTerm, wVec, wLex, rrfC] using hl
  · simpa [fusedScoreOf, rrfTerm, wVec, wLex, rrfC] using hv

/-- C6: for every candidate set and every `k`, the `RankedContext`
produced by the Fusion Engine has at most `k` entries and is sorted
descending by the score actually used (`rerankScore` when reranking
succeeded, fused score otherwise). -/
theorem retrieve_length_sorted (k : ℕ)
    (vec : Except RetrievalUnavailable (List (String × ℚ)))
    (lexScore : String → ℚ) (reranker : Option (String → ℚ)) :
    (retrieve k vec lexScore reranker).entries.length ≤ k ∧
    (retrieve k vec lexScore reranker).entries.Sorted
      (fun a b => usedScore b.1 ≤ usedScore a.1) := by
  cases vec with
  | error e => exact ⟨Nat.zero_le k, List.sorted_nil⟩
  | ok raw =>
      letI : IsTotal RetrievalCandidate (fun a b => usedScore b ≤ usedScore a) :=
        ⟨fun a b => le_total (usedScore b) (usedScore a)⟩
      letI : IsTrans RetrievalCandidate (fun a b => usedScore b ≤ usedScore a) :=
        ⟨fun _ _ _ h1 h2 => le_trans h2 h1⟩
      constructor
      · simp [retrieve]
      · have hsorted :
            (finalOrder (applyReranker reranker
              (fusedOrder (fusionBase lexScore
                (dedupeByText (raw.take (3 * k))))))).Sorted
              (fun a b => usedScore b ≤ usedScore a) :=
          List.sorted_insertionSort _ _
        show (((finalOrder (applyReranker reranker
            (fusedOrder (fusionBase lexScore
              (dedupeByText (raw.take (3 * k))))))).take k).map
            (fun c => (c, confidenceOf c))).Sorted
            (fun a b => usedScore b.1 ≤ usedScore a.1)
        exact (hsorted.sublist (List.take_sublist k _)).map _ (fun a b h => h)

/-- C7: whenever the lexical emergency scan matched, an `UNCLEAR`
contextual judgment is handled exactly like `ACTIVE_EMERGENCY` (fail
safe), yielding `EMERGENCY_FLAG`. -/
theorem safetyGate_unclear_failSafe (q : QueryFeatures) :
    safetyGate q ContextJudgment.unclear =
      safetyGate q ContextJudgment.activeEmergency ∧
    (3 ≤ q.length → q.length ≤ 2000 → q.policyMatch = false →
      q.emergencyLexicalMatch = true →
      safetyGate q ContextJudgment.unclear =
        Except.ok ⟨SafetyVerdict.emergencyFlag emergencyReason,
          if q.mentalHealthMatch then some supportivePreamble else none⟩) := by
  constructor
  · rfl
  · intro h1 h2 h3 h4
    have hlen : ¬(q.length < 3 ∨ 2000 < q.length) := by omega
    simp [safetyGate, hlen, h3, h4]

/-- Witness for C7: a valid-length emergency-matching query with no
policy match and an `UNCLEAR` judgment gets the emergency flag, the
same outcome as an `ACTIVE_EMERGENCY` judgment. -/
theorem safetyGate_unclear_failSafe_witness :
    safetyGate ⟨20, true, false, false⟩ ContextJudgment.unclear =
      safetyGate ⟨20, true, false, false⟩ ContextJudgment.activeEmergency ∧
    safetyGate ⟨20, true, false, false⟩ ContextJudgment.unclear =
      Except.ok ⟨SafetyVerdict.emergencyFlag emergencyReason, none⟩ := by
  have h := safetyGate_unclear_failSafe ⟨20, true, false, false⟩
  exact ⟨h.1, by simpa using h.2 (by decide) (by decide) rfl rfl⟩

/-- C8: the Evidence Aggregator never raises — its raising view always
resolves to the bundle of the total function — the fields of the bundle are
always (possibly empty) sequences within the 3/3/5 caps, and every
sub-fetch failure or timeout becomes an empty contribution, as do the
lookups skipped for lack of extracted entities. -/
theorem gather_never_raises (entityCount : ℕ)
    (literature : FetchOutcome (List String))
    (interactions : FetchOutcome (List InteractionWarning))
    (adverse : FetchOutcome (List String)) :
    gatherExc entityCount literature interactions adverse =
      Except.ok (gather entityCount literature interactions adverse) ∧
    (gather entityCount literature interactions adverse).literatureSnippets.length ≤ 3 ∧
    (gather entityCount literature interactions adverse).interactionWarnings.length ≤ 3 ∧
    (gather entityCount literature interactions adverse).adverseEventSignals.length ≤ 5 ∧
    (literature ≠ FetchOutcome.ok (recoverFetch literature) →
      (gather entityCount literature interactions adverse).literatureSnippets = []) ∧
    (interactions ≠ FetchOutcome.ok (recoverFetch interactions) ∨ entityCount < 2 →
      (gather entityCount literature interactions adverse).interactionWarnings = []) ∧
    (adverse ≠ FetchOutcome.ok (recoverFetch adverse) ∨ entityCount < 1 →
      (gather entityCount literature interactions adverse).adverseEventSignals = []) := by
  refine ⟨?_, ?_, ?_, ?_, ?_, ?_, ?_⟩
  · by_cases h2 : 2 ≤ entityCount <;> by_cases h1 : 1 ≤ entityCount <;>
      cases literature <;> cases interactions <;> cases adverse <;>
        simp [gatherExc, gather, tryFetch, fetchExc, recoverFetch, h1, h2]
  · simp [gather, List.length_take]
  · by_cases h2 : 2 ≤ entityCount <;> simp [gather, h2, List.length_take]
  · by_cases h1 : 1 ≤ entityCount <;> simp [gather, h1, List.length_take]
  · intro h
    cases literature <;> simp_all [gather, recoverFetch, fetchExc]
  · intro h
    rcases h with h | h
    · cases interactions <;> simp_all [gather, recoverFetch, fetchExc]
    · simp [gather, Nat.not_le_of_lt h]
  · intro h
    rcases h with h | h
    · cases adverse <;> simp_all [gather, recoverFetch, fetchExc]
    · simp [gather, Nat.not_le_of_lt h]

/-- Witness for C8: with two extracted entities, a failed literature
fetch and a timed-out adverse-event fetch contribute empty sequences
while the in-time interaction lookup is kept, and the raising view
resolves. -/
theorem gather_never_raises_witness :
    gatherExc 2 FetchOutcome.failed
        (FetchOutcome.ok [⟨"aspirin + warfarin", "major"⟩]) FetchOutcome.timedOut =
      Except.ok (gather 2 FetchOutcome.failed
        (FetchOutcome.ok [⟨"aspirin + warfarin", "major"⟩]) FetchOutcome.timedOut) ∧
    (gather 2 FetchOutcome.failed
        (FetchOutcome.ok [⟨"aspirin + warfarin", "major"⟩])
        FetchOutcome.timedOut).literatureSnippets = [] ∧
    (gather 2 FetchOutcome.failed
        (FetchOutcome.ok [⟨"aspirin + warfarin", "major"⟩])
        FetchOutcome.timedOut).adverseEventSignals = [] := by
  have h := gather_never_raises 2 FetchOutcome.failed
    (FetchOutcome.ok [⟨"aspirin + warfarin", "major"⟩]) FetchOutcome.timedOut
  exact ⟨h.1, h.2.2.2.2.1 (by decide), h.2.2.2.2.2.2 (Or.inl (by decide))⟩

end Medicore
